import Mathlib

/-
Verification of the data-transformation pipeline of the Chesapeake Bay
nitrogen-loss dashboard (`Dashboard_micheal.py`).  The pandas/numpy
operations of the loader (`load_data`) and of the reactive callback
(`update_dashboard`) are shallowly embedded over exact rationals:
column sums with NaN-skipping, half-to-even rounding (Python `round`,
pandas `.round()`), `groupby` with its sorted keys, string
title-casing, and the `Except`-style error propagation of the
dictionary lookup and the CSV reads.  Chart rendering itself is out of
scope; the numeric inputs handed to the charts are modelled.
-/

namespace Dashboard

/-- Sum of a pandas column: missing values (NaN) are skipped, so an
absent entry contributes zero and never drops the rest of the sum.
Mirrors `DataFrame.sum` with its default `skipna=True`. -/
def pdSum (xs : List (Option ℚ)) : ℚ :=
  (xs.filterMap id).sum

/-- Round-half-to-even to the nearest integer, the semantics of
Python's built-in `round` and of pandas `.round()` on exact values:
below the midpoint of the floor round down, above it round up, on the
midpoint pick the even neighbour. -/
def roundHalfEven (q : ℚ) : ℤ :=
  let f : ℤ := ⌊q⌋
  if q < (f : ℚ) + 1 / 2 then f
  else if (f : ℚ) + 1 / 2 < q then f + 1
  else if f % 2 = 0 then f else f + 1

/-- Python `round(x, 2)` on exact values: scale by 100, round to the
nearest integer (ties to even), scale back. -/
def round2 (q : ℚ) : ℚ :=
  (roundHalfEven (q * 100) : ℚ) / 100

/-- pandas `.round()` with no argument: to the nearest integer, the
result still carried as a (rational) numeric value. -/
def pdRound0 (q : ℚ) : ℚ :=
  (roundHalfEven q : ℚ)

/-- Worker for `pyTitle`: the flag records whether the previous
character was alphabetic. -/
def pyTitleGo : Bool → List Char → List Char
  | _, [] => []
  | prevAlpha, c :: rest =>
    if c.isAlpha then
      (if prevAlpha then c.toLower else c.toUpper) :: pyTitleGo true rest
    else
      c :: pyTitleGo false rest

/-- Python `str.title()` on ASCII text: uppercase each letter that
follows a non-letter, lowercase every other letter. -/
def pyTitle (s : List Char) : List Char :=
  pyTitleGo false s

/-- The commodity display formatting of the dashboard:
`.str.title().str.replace('_', ' ')`. -/
def formatCommodity (s : List Char) : List Char :=
  (pyTitle s).map (fun c => if c = '_' then ' ' else c)

/-- Worker for `pyReplaceAll`, with explicit fuel (the length of the
subject suffices: every step consumes at least one character). -/
def replaceAux : Nat → List Char → List Char → List Char → List Char
  | 0, _, _, s => s
  | fuel + 1, pat, rep, s =>
    if pat.isPrefixOf s then
      rep ++ replaceAux fuel pat rep (s.drop pat.length)
    else
      match s with
      | [] => []
      | c :: rest => c :: replaceAux fuel pat rep rest

/-- Python `str.replace(pat, rep)`: replace every (leftmost,
non-overlapping) occurrence of `pat`. -/
def pyReplaceAll (pat rep s : List Char) : List Char :=
  replaceAux s.length pat rep s

/-- Lexicographic comparison of strings by code point, the order
Python uses on `str` and pandas uses to sort `groupby` keys. -/
def lexLe : List Char → List Char → Bool
  | [], _ => true
  | _ :: _, [] => false
  | a :: as, b :: bs =>
    if a.toNat < b.toNat then true
    else if b.toNat < a.toNat then false
    else lexLe as bs

/-- A row of `crop_processing_nitrogen.csv` after parsing.  Loss
columns may be missing (NaN); flow columns are the three
crop-processing trade measures (the within-county one is the column
that arrives under the `selfloop` name, already read into its
semantic field — the textual rename acts on the column-name list of
the table, see `renameColumns`). -/
structure CropRow where
  fips : Nat
  county : String
  commodity : List Char
  nitrogen_loss1 : Option ℚ
  nitrogen_loss2 : Option ℚ
  imp_crop_processing_nitrogen : ℚ
  exp_crop_processing_nitrogen : ℚ
  within_crop_processing_nitrogen : ℚ
deriving DecidableEq

/-- A row of `animal_stage_nitrogen.csv` after parsing: five loss
columns and the animal and meat trade measures. -/
structure AnimalRow where
  fips : Nat
  county : String
  commodity : List Char
  nitrogen_loss3 : Option ℚ
  nitrogen_loss4 : Option ℚ
  nitrogen_loss5 : Option ℚ
  nitrogen_loss6 : Option ℚ
  nitrogen_loss7 : Option ℚ
  imp_animal_nitrogen : ℚ
  exp_animal_nitrogen : ℚ
  within_animal_nitrogen : ℚ
  imp_meat_nitrogen : ℚ
  exp_meat_nitrogen : ℚ
  within_meat_nitrogen : ℚ
deriving DecidableEq

/-- Projection of a table row to the three flow columns of one
supply-chain stage, the shape consumed by the commodity grouper. -/
structure StageRow where
  commodity : List Char
  impv : ℚ
  expv : ℚ
  withinv : ℚ
deriving DecidableEq

/-- The column-name prefix of self-referential flows in the raw CSVs. -/
def selfloopL : List Char := "selfloop".toList

/-- The replacement prefix used by the dashboard. -/
def withinL : List Char := "within_county".toList

/-- The per-column rename of `load_data`: a column whose name starts
with `selfloop` has every occurrence of `selfloop` in it replaced by
`within_county` (Python `str.replace` replaces all occurrences); any
other column is left unchanged. -/
def renameCol (c : List Char) : List Char :=
  if selfloopL.isPrefixOf c then pyReplaceAll selfloopL withinL c else c

/-- The rename applied to the column-name list of the crop-stage and
animal-stage tables. -/
def renameColumns (cols : List (List Char)) : List (List Char) :=
  cols.map renameCol

/-- Per-row `total_nitrogen_loss` of the crop-stage table:
`df[['nitrogen_loss1', 'nitrogen_loss2']].sum(axis=1)`. -/
def cropRowTotal (r : CropRow) : ℚ :=
  pdSum [r.nitrogen_loss1, r.nitrogen_loss2]

/-- Per-row `total_nitrogen_loss` of the animal-stage table, summing
`nitrogen_loss3` through `nitrogen_loss7`. -/
def animalRowTotal (r : AnimalRow) : ℚ :=
  pdSum [r.nitrogen_loss3, r.nitrogen_loss4, r.nitrogen_loss5,
         r.nitrogen_loss6, r.nitrogen_loss7]

/-- The county-level aggregation
`pd.concat(...).groupby('FIPS').agg(sum, first)`: the input is the concatenated list of reduced
rows `(FIPS, county, total)`; the keys come out sorted (the pandas
default); each key gets the sum of its totals and the first county
name encountered for it in concatenation order. -/
def total_nitrogen_df (rows : List (Nat × String × ℚ)) :
    List (Nat × ℚ × String) :=
  let keys := ((rows.map (fun r => r.1)).dedup).insertionSort (· ≤ ·)
  keys.map (fun k =>
    let g := rows.filter (fun r => r.1 == k)
    (k, (g.map (fun r => r.2.2)).sum, ((g.map (fun r => r.2.1)).headD "")))

/-- Look a county key up in the aggregated table. -/
def aggLookup (t : List (Nat × ℚ × String)) (k : Nat) : Option (ℚ × String) :=
  (t.find? (fun r => r.1 == k)).map (fun r => r.2)

/-- The seven raw category sums of the summary table, in stage order:
the column sums `crop_df[c].sum()` for the two crop loss columns and
`animal_df[c].sum()` for the five animal loss columns. -/
def categorySums (crop : List CropRow) (animal : List AnimalRow) : List ℚ :=
  [pdSum (crop.map (fun r => r.nitrogen_loss1)),
   pdSum (crop.map (fun r => r.nitrogen_loss2)),
   pdSum (animal.map (fun r => r.nitrogen_loss3)),
   pdSum (animal.map (fun r => r.nitrogen_loss4)),
   pdSum (animal.map (fun r => r.nitrogen_loss5)),
   pdSum (animal.map (fun r => r.nitrogen_loss6)),
   pdSum (animal.map (fun r => r.nitrogen_loss7))]

/-- The grand total before rounding, exactly as line 209 computes it:
`crop_df[[...]].sum().sum() / 10**6 + animal_df[[...]].sum().sum() / 10**6`. -/
def raw_converted_total (crop : List CropRow) (animal : List AnimalRow) : ℚ :=
  (pdSum (crop.map (fun r => r.nitrogen_loss1)) +
   pdSum (crop.map (fun r => r.nitrogen_loss2))) / 10 ^ 6 +
  (pdSum (animal.map (fun r => r.nitrogen_loss3)) +
   pdSum (animal.map (fun r => r.nitrogen_loss4)) +
   pdSum (animal.map (fun r => r.nitrogen_loss5)) +
   pdSum (animal.map (fun r => r.nitrogen_loss6)) +
   pdSum (animal.map (fun r => r.nitrogen_loss7))) / 10 ^ 6

/-- The numeric content of the nitrogen-loss summary table: the seven
per-category values, each converted by `/ 10**6` and rounded to two
decimals individually, paired with the reported total, which is the
raw grand total converted and rounded once. -/
def nitrogen_loss_table (crop : List CropRow) (animal : List AnimalRow) :
    List ℚ × ℚ :=
  ((categorySums crop animal).map (fun s => round2 (s / 10 ^ 6)),
   round2 (raw_converted_total crop animal))

/-- The grouped-by-commodity trade table of one stage (lines 279-289):
group the rows by the raw commodity key (pandas `groupby`, keys
sorted), sum the three flow measures per key, convert each sum by
`/ 10**6` and round to two decimals, and format the key with
`.str.title().str.replace('_', ' ')` for display. -/
def commodity_table (rows : List StageRow) :
    List (List Char × ℚ × ℚ × ℚ) :=
  let keys := ((rows.map (fun r => r.commodity)).dedup).insertionSort
    (fun a b => lexLe a b = true)
  keys.map (fun k =>
    let g := rows.filter (fun r => r.commodity == k)
    (formatCommodity k,
     round2 (((g.map (fun r => r.impv)).sum) / 10 ^ 6),
     round2 (((g.map (fun r => r.expv)).sum) / 10 ^ 6),
     round2 (((g.map (fun r => r.withinv)).sum) / 10 ^ 6)))

/-- The numeric artifacts of the inventory / harvested-area section:
the value lists handed to the two pie charts and the two backing
tables (label, value) shown beneath them. -/
structure InvHarvestSection where
  inventoryChartValues : List ℚ
  areaChartValues : List ℚ
  inventoryTable : List (List Char × ℚ)
  areaTable : List (List Char × ℚ)
deriving DecidableEq

/-- Lines 301-342: format the Commodity labels, build both pie charts
from the (still raw) values, then round the dataframes with
`.round()` (zero decimals) and build both tables from the rounded
values.  The charts therefore carry unrounded values and the tables
integer-rounded ones. -/
def inventory_harvest_section (inventory area : List (List Char × ℚ)) :
    InvHarvestSection :=
  let inv := inventory.map (fun r => (formatCommodity r.1, r.2))
  let ar := area.map (fun r => (formatCommodity r.1, r.2))
  let inventoryChart := inv.map (fun r => r.2)
  let areaChart := ar.map (fun r => r.2)
  let invRounded := inv.map (fun r => (r.1, pdRound0 r.2))
  let arRounded := ar.map (fun r => (r.1, pdRound0 r.2))
  ⟨inventoryChart, areaChart, invRounded, arRounded⟩

/-- The failures of the loader, named after the spec's taxonomy: the
dictionary lookup `data_paths[year]` failing on an unknown year
(`KeyError` in the source) and a CSV read failing. -/
inductive DashError where
  | datasetNotFound (year : String)
  | fileLoad (file : String)
deriving DecidableEq

/-- The year keys of `data_paths`. -/
def validYears : List String := ["2017", "2030", "2050"]

/-- The five files a scenario directory may provide.  `none` models a
missing or unreadable file.  The crop and animal tables carry their
raw column-name lists (with `selfloop*` names) beside their parsed
rows; the unused nitrogen summary is kept as an opaque numeric
table. -/
structure FS where
  nitrogen : Option (List (List ℚ))
  area : Option (List (List Char × ℚ))
  inventory : Option (List (List Char × ℚ))
  crop : Option (List (List Char) × List CropRow)
  animal : Option (List (List Char) × List AnimalRow)

/-- Read one file or fail with `FileLoadError`. -/
def requireFile {α : Type} (o : Option α) (file : String) :
    Except DashError α :=
  match o with
  | none => Except.error (DashError.fileLoad file)
  | some a => Except.ok a

/-- The bundle `load_data` returns: the five tables (columns of the
two stage tables renamed), the per-row totals, and the county-level
aggregate. -/
structure Loaded where
  nitrogen : List (List ℚ)
  area : List (List Char × ℚ)
  inventory : List (List Char × ℚ)
  cropColumns : List (List Char)
  cropRows : List CropRow
  animalColumns : List (List Char)
  animalRows : List AnimalRow
  cropWithTotal : List (CropRow × ℚ)
  animalWithTotal : List (AnimalRow × ℚ)
  totalNitrogen : List (Nat × ℚ × String)

/-- The loader `load_data(year)`: resolve the year key (failing like the
dictionary lookup on an unknown year), read the five files in source
order (failing on the first missing one), rename the `selfloop`
columns of both stage tables, add the per-row totals, and build the
county-level aggregate from the concatenation of the two reduced
tables. -/
def load_data (year : String) (fs : FS) : Except DashError Loaded :=
  if year ∈ validYears then do
    let n ← requireFile fs.nitrogen "nitrogen_losses_summary.csv"
    let areaT ← requireFile fs.area "harvested_area_by_commodity.csv"
    let inventoryT ← requireFile fs.inventory "inventory_by_commodity.csv"
    let cropT ← requireFile fs.crop "crop_processing_nitrogen.csv"
    let animalT ← requireFile fs.animal "animal_stage_nitrogen.csv"
    Except.ok
      { nitrogen := n
        area := areaT
        inventory := inventoryT
        cropColumns := renameColumns cropT.1
        cropRows := cropT.2
        animalColumns := renameColumns animalT.1
        animalRows := animalT.2
        cropWithTotal := cropT.2.map (fun r => (r, cropRowTotal r))
        animalWithTotal := animalT.2.map (fun r => (r, animalRowTotal r))
        totalNitrogen := total_nitrogen_df
          (cropT.2.map (fun r => (r.fips, r.county, cropRowTotal r)) ++
           animalT.2.map (fun r => (r.fips, r.county, animalRowTotal r))) }
  else
    Except.error (DashError.datasetNotFound year)

/-- Projection of a crop row to the crop-processing stage flows. -/
def cropStage (r : CropRow) : StageRow :=
  ⟨r.commodity, r.imp_crop_processing_nitrogen,
   r.exp_crop_processing_nitrogen, r.within_crop_processing_nitrogen⟩

/-- Projection of an animal row to the animal-nitrogen stage flows. -/
def animalStage (r : AnimalRow) : StageRow :=
  ⟨r.commodity, r.imp_animal_nitrogen, r.exp_animal_nitrogen,
   r.within_animal_nitrogen⟩

/-- Projection of an animal row to the meat-nitrogen stage flows. -/
def meatStage (r : AnimalRow) : StageRow :=
  ⟨r.commodity, r.imp_meat_nitrogen, r.exp_meat_nitrogen,
   r.within_meat_nitrogen⟩

/-- The numeric artifacts of one recomputation: the summary table,
the three grouped stage tables, the always-empty trade-maps slot, and
the inventory / harvest section. -/
structure Artifacts where
  nitrogenTable : List ℚ × ℚ
  stageTables : List (List (List Char × ℚ × ℚ × ℚ))
  tradeMapsSlot : List Unit
  invSection : InvHarvestSection
deriving DecidableEq

/-- Derive every artifact group from a successful load. -/
def buildArtifacts (t : Loaded) : Artifacts :=
  { nitrogenTable := nitrogen_loss_table t.cropRows t.animalRows
    stageTables :=
      [commodity_table (t.cropRows.map cropStage),
       commodity_table (t.animalRows.map animalStage),
       commodity_table (t.animalRows.map meatStage)]
    tradeMapsSlot := []
    invSection := inventory_harvest_section t.inventory t.area }

/-- The reactive callback `update_dashboard`: a fresh load followed
by the derivation of every artifact group; any loader failure aborts
the whole recomputation before any artifact exists. -/
def update_dashboard (year : String) (fs : FS) : Except DashError Artifacts :=
  (load_data year fs).map buildArtifacts

/-- The map-coloring transform `np.log1p` over the reals. -/
noncomputable def log_scale (x : ℝ) : ℝ :=
  Real.log (1 + x)

/-- Two stage rows whose commodity keys differ only in case, the
input of the commodity-grouping test: measures 10 and 5 on the
first flow column. -/
def c1rows : List StageRow :=
  [⟨"corn_grain".toList, 10, 0, 0⟩, ⟨"CORN_GRAIN".toList, 5, 0, 0⟩]

/-- The display label both keys of `c1rows` format to. -/
def cornGrainLabel : List Char := "Corn Grain".toList

/-- A one-row crop table whose two category sums are 1000 each; its
converted category values 0.001 round to 0.00 while contributing
0.002 to the raw total. -/
def cexCrop : List CropRow :=
  [⟨1, "A", "x".toList, some 1000, some 1000, 0, 0, 0⟩]

/-- A one-row animal table whose five category sums are 1000 each;
together with `cexCrop` the raw total is 0.007, which rounds to 0.01
while every displayed category value rounds to 0.00. -/
def cexAnimal : List AnimalRow :=
  [⟨2, "B", "y".toList, some 1000, some 1000, some 1000, some 1000,
    some 1000, 0, 0, 0, 0, 0, 0⟩]

/-- The raw column names of the synthetic crop table. -/
def cropCols7 : List (List Char) :=
  ["FIPS".toList, "county".toList, "commodity".toList,
   "nitrogen_loss1".toList, "nitrogen_loss2".toList,
   "selfloop_crop_processing_nitrogen".toList]

/-- The raw column names of the synthetic animal table. -/
def animalCols7 : List (List Char) :=
  ["FIPS".toList, "county".toList, "commodity".toList,
   "nitrogen_loss3".toList, "nitrogen_loss4".toList,
   "nitrogen_loss5".toList, "nitrogen_loss6".toList,
   "nitrogen_loss7".toList, "selfloop_animal_nitrogen".toList,
   "selfloop_meat_nitrogen".toList]

/-- The synthetic 2-row crop table of the end-to-end scenario: each
loss column sums to 1e6 across the two rows. -/
def crop7 : List CropRow :=
  [⟨1, "A", "c".toList, some 500000, some 500000, 0, 0, 0⟩,
   ⟨2, "B", "c".toList, some 500000, some 500000, 0, 0, 0⟩]

/-- The synthetic 2-row animal table of the end-to-end scenario: each
of the five loss columns sums to 2e6 across the two rows. -/
def animal7 : List AnimalRow :=
  [⟨1, "A", "m".toList, some 1000000, some 1000000, some 1000000,
    some 1000000, some 1000000, 0, 0, 0, 0, 0, 0⟩,
   ⟨2, "B", "m".toList, some 1000000, some 1000000, some 1000000,
    some 1000000, some 1000000, 0, 0, 0, 0, 0, 0⟩]

/-- The synthetic scenario directory of the end-to-end test. -/
def fs7 : FS :=
  { nitrogen := some []
    area := some [("corn_grain".toList, 3 / 2)]
    inventory := some [("broilers".toList, 5 / 2)]
    crop := some (cropCols7, crop7)
    animal := some (animalCols7, animal7) }

/-- A scenario directory with every file missing. -/
def emptyFS : FS :=
  { nitrogen := none, area := none, inventory := none,
    crop := none, animal := none }

/-- The pandas column sum of the empty column. -/
lemma pdSum_nil : pdSum [] = 0 := rfl

/-- A present value contributes itself to a pandas column sum. -/
lemma pdSum_cons_some (a : ℚ) (l : List (Option ℚ)) :
    pdSum (some a :: l) = a + pdSum l := by
  simp [pdSum]

/-- A missing value is skipped by a pandas column sum. -/
lemma pdSum_cons_none (l : List (Option ℚ)) :
    pdSum (none :: l) = pdSum l := by
  simp [pdSum]

/-- One unfolding step of `replaceAux` when the pattern matches at
the front. -/
lemma replaceAux_pos (fuel : Nat) (pat rep s : List Char)
    (h : pat.isPrefixOf s) :
    replaceAux (fuel + 1) pat rep s =
      rep ++ replaceAux fuel pat rep (s.drop pat.length) := by
  simp only [replaceAux, if_pos h]

/-- A list of the form `within_county ++ l` never starts with `selfloop`: the first
characters already differ. -/
lemma selfloop_not_prefix_of_within_append (l : List Char) :
    selfloopL.isPrefixOf (withinL ++ l) = false := rfl

/-- Whatever column name comes in, the renamed name does not start
with the self-loop prefix. -/
lemma renameCol_result_not_selfloop (c : List Char) :
    selfloopL.isPrefixOf (renameCol c) = false := by
  by_cases h : selfloopL.isPrefixOf c
  · cases c with
    | nil => exact absurd h (by decide)
    | cons a as =>
      have hstep : renameCol (a :: as) =
          withinL ++ replaceAux as.length selfloopL withinL
            ((a :: as).drop selfloopL.length) := by
        simp only [renameCol, if_pos h, pyReplaceAll, List.length_cons]
        exact replaceAux_pos as.length selfloopL withinL (a :: as) h
      rw [hstep]
      exact selfloop_not_prefix_of_within_append _
  · simp only [renameCol, if_neg h]
    exact Bool.eq_false_iff.mpr h

/-- Running `find?` on a list of key-tagged pairs built over distinct-or-not
keys: the first pair whose key equals `k` is `(k, f k)`. -/
lemma find?_keyed_map (f : Nat → ℚ × String) (keys : List Nat) (k : Nat)
    (h : k ∈ keys) :
    (keys.map (fun x => (x, f x))).find? (fun r => r.1 == k) =
      some (k, f k) := by
  induction keys with
  | nil => cases h
  | cons a as ih =>
    rcases eq_or_ne a k with rfl | hne
    · rw [List.map_cons]
      exact List.find?_cons_of_pos _ (by simp)
    · rw [List.map_cons, List.find?_cons_of_neg _ (by simpa using hne)]
      exact ih (by rcases List.mem_cons.mp h with rfl | h'; exact absurd rfl hne; exact h')

/-- Looking up any key that actually occurs in the concatenated
reduced rows returns the sum of its totals and the first county name
in concatenation order. -/
lemma aggLookup_total_nitrogen_df (rows : List (Nat × String × ℚ)) (k : Nat)
    (hne : rows.filter (fun r => r.1 == k) ≠ []) :
    aggLookup (total_nitrogen_df rows) k =
      some (((rows.filter (fun r => r.1 == k)).map (fun r => r.2.2)).sum,
            ((rows.filter (fun r => r.1 == k)).map (fun r => r.2.1)).headD "") := by
  obtain ⟨r, hr⟩ : ∃ r, r ∈ rows.filter (fun r => r.1 == k) := by
    cases hfil : rows.filter (fun r => r.1 == k) with
    | nil => exact absurd hfil hne
    | cons a l => exact ⟨a, hfil ▸ List.mem_cons_self a l⟩
  have hmem := List.mem_filter.mp hr
  have hk1 : r.1 = k := by simpa using hmem.2
  have hk : k ∈ ((rows.map (fun r => r.1)).dedup).insertionSort (· ≤ ·) := by
    rw [List.mem_insertionSort, List.mem_dedup]
    exact hk1 ▸ List.mem_map_of_mem (fun r => r.1) hmem.1
  simp only [aggLookup, total_nitrogen_df]
  rw [find?_keyed_map
    (fun x => (((rows.filter (fun r => r.1 == x)).map (fun r => r.2.2)).sum,
      ((rows.filter (fun r => r.1 == x)).map (fun r => r.2.1)).headD ""))
    _ k hk]
  rfl

/-- C5: for every crop-stage row the derived total equals the sum of
`nitrogen_loss1` and `nitrogen_loss2`, and for every animal-stage row
it equals the sum of `nitrogen_loss3` through `nitrogen_loss7`, a
missing value counting as zero (it never drops the row's total) and a
zero category contributing exactly zero. -/
theorem per_row_total_loss_sums :
    (∀ r : CropRow, cropRowTotal r =
        r.nitrogen_loss1.getD 0 + r.nitrogen_loss2.getD 0) ∧
    (∀ r : AnimalRow, animalRowTotal r =
        r.nitrogen_loss3.getD 0 + r.nitrogen_loss4.getD 0 +
        r.nitrogen_loss5.getD 0 + r.nitrogen_loss6.getD 0 +
        r.nitrogen_loss7.getD 0) := by
  constructor
  · intro r
    rcases r with ⟨_, _, _, n1, n2, _, _, _⟩
    cases n1 <;> cases n2 <;>
      simp [cropRowTotal, pdSum, Option.getD]
  · intro r
    rcases r with ⟨_, _, _, n3, n4, n5, n6, n7, _, _, _, _, _, _⟩
    cases n3 <;> cases n4 <;> cases n5 <;> cases n6 <;> cases n7 <;>
      simp [animalRowTotal, pdSum, Option.getD] <;> ring

/-- C10: the two backing tables of the inventory / harvested-area
section hold every numeric value rounded to the nearest integer,
while the two pie charts built from the same tables carry the
unrounded values (rounding happens after the charts are built). -/
theorem inventory_tables_rounded_charts_raw :
    ∀ inventory area : List (List Char × ℚ),
      (inventory_harvest_section inventory area).inventoryChartValues =
          inventory.map (fun r => r.2) ∧
      (inventory_harvest_section inventory area).areaChartValues =
          area.map (fun r => r.2) ∧
      (inventory_harvest_section inventory area).inventoryTable.map
          (fun r => r.2) =
        inventory.map (fun r => (roundHalfEven r.2 : ℚ)) ∧
      (inventory_harvest_section inventory area).areaTable.map
          (fun r => r.2) =
        area.map (fun r => (roundHalfEven r.2 : ℚ)) := by
  intro inventory area
  refine ⟨?_, ?_, ?_, ?_⟩ <;>
    simp [inventory_harvest_section, pdRound0, List.map_map, Function.comp]

/-- C8: the map-coloring transform satisfies `log_scale 0 = 0`,
equals `ln (1 + x)` for positive `x`, and is strictly increasing on
non-negative inputs. -/
theorem log_scale_zero_ln_monotone :
    log_scale 0 = 0 ∧
    (∀ x : ℝ, 0 < x → log_scale x = Real.log (1 + x)) ∧
    (∀ x y : ℝ, 0 ≤ x → x < y → log_scale x < log_scale y) := by
  refine ⟨?_, ?_, ?_⟩
  · simp [log_scale]
  · intro x _
    rfl
  · intro x y hx hxy
    exact Real.log_lt_log (by linarith) (by linarith)

/-- Witness for C8 at 0, 1 and 2. -/
theorem log_scale_zero_ln_monotone_witness :
    log_scale 0 = 0 ∧ log_scale 1 = Real.log (1 + 1) ∧
    log_scale 1 < log_scale 2 :=
  ⟨log_scale_zero_ln_monotone.1,
   log_scale_zero_ln_monotone.2.1 1 one_pos,
   log_scale_zero_ln_monotone.2.2 1 2 zero_le_one one_lt_two⟩

/-- C2: the reported grand total is the raw (unconverted, unrounded)
sum of the seven category sums, divided by 10^6 and rounded exactly
once; whenever that differs from the sum of the seven individually
rounded table values, the reported total differs from that sum too. -/
theorem grand_total_rounded_once :
    ∀ (crop : List CropRow) (animal : List AnimalRow),
      (nitrogen_loss_table crop animal).2 =
          round2 ((categorySums crop animal).sum / 10 ^ 6) ∧
      (round2 ((categorySums crop animal).sum / 10 ^ 6) ≠
          ((nitrogen_loss_table crop animal).1).sum →
        (nitrogen_loss_table crop animal).2 ≠
          ((nitrogen_loss_table crop animal).1).sum) := by
  intro crop animal
  have h1 : (nitrogen_loss_table crop animal).2 =
      round2 ((categorySums crop animal).sum / 10 ^ 6) := by
    simp only [nitrogen_loss_table, raw_converted_total, categorySums,
      List.sum_cons, List.sum_nil]
    congr 1
    ring
  exact ⟨h1, fun hne heq => hne (h1.symm.trans heq)⟩

/-- The divergent input has every raw category sum equal to 1000. -/
lemma categorySums_cex :
    categorySums cexCrop cexAnimal = [1000, 1000, 1000, 1000, 1000, 1000, 1000] := by
  norm_num [categorySums, cexCrop, cexAnimal, pdSum_cons_some, pdSum_nil]

/-- The raw converted grand total of the divergent input. -/
lemma raw_total_cex : raw_converted_total cexCrop cexAnimal = 7 / 1000 := by
  norm_num [raw_converted_total, cexCrop, cexAnimal, pdSum_cons_some, pdSum_nil]

/-- The summary table of the divergent input: seven zeros against a
reported total of 0.01. -/
lemma nitrogen_table_cex :
    nitrogen_loss_table cexCrop cexAnimal = ([0, 0, 0, 0, 0, 0, 0], 1 / 100) := by
  simp only [nitrogen_loss_table, categorySums_cex, raw_total_cex]
  norm_num [round2, roundHalfEven]

/-- Witness for C2: with every category sum equal to 1000 the seven
rounded values are all 0.00 while the once-rounded total is 0.01. -/
theorem grand_total_rounded_once_witness :
    (nitrogen_loss_table cexCrop cexAnimal).2 ≠
        ((nitrogen_loss_table cexCrop cexAnimal).1).sum ∧
    (nitrogen_loss_table cexCrop cexAnimal).2 =
        round2 ((categorySums cexCrop cexAnimal).sum / 10 ^ 6) :=
  ⟨(grand_total_rounded_once cexCrop cexAnimal).2 (by
      rw [categorySums_cex, nitrogen_table_cex]
      norm_num [round2, roundHalfEven]),
   (grand_total_rounded_once cexCrop cexAnimal).1⟩

/-- C3 fails on the code: with every raw category sum equal to 1000
the seven displayed values sum to 0.00 but the displayed total is
0.01. -/
theorem category_sum_ne_reported_total_cex :
    ((nitrogen_loss_table cexCrop cexAnimal).1).sum ≠
      (nitrogen_loss_table cexCrop cexAnimal).2 := by
  rw [nitrogen_table_cex]
  norm_num

/-- C3 amended: the seven categories partition the total only before
rounding — the unrounded converted category values sum exactly to the
unrounded converted total, while the table displays each category
rounded individually and the total rounded once, so the displayed
values need not sum to the displayed total. -/
theorem categories_partition_before_rounding :
    ∀ (crop : List CropRow) (animal : List AnimalRow),
      ((categorySums crop animal).map (fun s => s / 10 ^ 6)).sum =
          raw_converted_total crop animal ∧
      (nitrogen_loss_table crop animal).1 =
          (categorySums crop animal).map (fun s => round2 (s / 10 ^ 6)) ∧
      (nitrogen_loss_table crop animal).2 =
          round2 (raw_converted_total crop animal) := by
  intro crop animal
  refine ⟨?_, rfl, rfl⟩
  simp only [categorySums, raw_converted_total, List.map_cons,
    List.map_nil, List.sum_cons, List.sum_nil]
  ring

/-- C1 fails on the code: grouping happens on the raw commodity key
before the display formatting, so `corn_grain` and `CORN_GRAIN` are
not merged — the output does not contain exactly one row labeled
`Corn Grain`. -/
theorem commodity_grouping_case_variants_not_merged_cex :
    ((commodity_table c1rows).filter
        (fun r => r.1 == cornGrainLabel)).length ≠ 1 := by decide

/-- The sorted, deduplicated grouping keys of the case-variant input:
the all-caps key sorts first. -/
lemma c1_keys :
    ((c1rows.map (fun r => r.commodity)).dedup).insertionSort
        (fun a b => lexLe a b = true) =
      ["CORN_GRAIN".toList, "corn_grain".toList] := by decide

/-- The group of the all-caps key. -/
lemma c1_filter_upper :
    c1rows.filter (fun r => r.commodity == "CORN_GRAIN".toList) =
      [⟨"CORN_GRAIN".toList, 5, 0, 0⟩] := by decide

/-- The group of the lower-case key. -/
lemma c1_filter_lower :
    c1rows.filter (fun r => r.commodity == "corn_grain".toList) =
      [⟨"corn_grain".toList, 10, 0, 0⟩] := by decide

/-- Both raw keys format to the same display label. -/
lemma c1_label_upper : formatCommodity ("CORN_GRAIN".toList) = cornGrainLabel := by
  decide

/-- The lower-case key formats to the same display label. -/
lemma c1_label_lower : formatCommodity ("corn_grain".toList) = cornGrainLabel := by
  decide

/-- C1 amended: rows are grouped by the raw, case-sensitive commodity
key and only the labels are normalized afterwards, so the input rows
`corn_grain` (measure 10) and `CORN_GRAIN` (measure 5) produce two
output rows, both labeled `Corn Grain`, each carrying its own key's
separately summed, unit-converted measures. -/
theorem commodity_grouping_case_variants_two_rows :
    commodity_table c1rows =
      [(cornGrainLabel, round2 ((5 : ℚ) / 10 ^ 6), round2 (0 / 10 ^ 6),
        round2 (0 / 10 ^ 6)),
       (cornGrainLabel, round2 ((10 : ℚ) / 10 ^ 6), round2 (0 / 10 ^ 6),
        round2 (0 / 10 ^ 6))] := by
  simp only [commodity_table]
  rw [c1_keys]
  simp only [List.map_cons, List.map_nil]
  rw [c1_filter_upper, c1_filter_lower]
  simp only [List.map_cons, List.map_nil, List.sum_cons, List.sum_nil,
    add_zero, c1_label_upper, c1_label_lower]

/-- C4 fails on the code as stated: for a column that starts with the
prefix, `str.replace` rewrites every occurrence of `selfloop`, not
just the leading one. -/
theorem rename_rewrites_inner_occurrence_cex :
    renameCol ("selfloop_selfloop".toList) =
        ("within_county_within_county".toList) ∧
    renameCol ("selfloop_selfloop".toList) ≠
        ("within_county_selfloop".toList) := by decide

/-- C4 amended: the rename tests the prefix at the start of the name
only, but then rewrites every occurrence of `selfloop` inside a
matching name; columns not starting with the prefix are unchanged
(even when `selfloop` occurs later in them); and no renamed column
list retains a name that begins with the self-loop prefix. -/
theorem rename_selfloop_columns :
    ∀ cols : List (List Char),
      (∀ c, c ∈ renameColumns cols → selfloopL.isPrefixOf c = false) ∧
      (∀ c, c ∈ cols → selfloopL.isPrefixOf c = false → renameCol c = c) := by
  intro cols
  constructor
  · intro c hc
    rcases List.mem_map.mp hc with ⟨c₀, _, rfl⟩
    exact renameCol_result_not_selfloop c₀
  · intro c _ h
    simp [renameCol, h]

/-- Witness for C4 at a prefixed column and a column with an inner
occurrence only. -/
theorem rename_selfloop_columns_witness :
    selfloopL.isPrefixOf (renameCol ("selfloop_x".toList)) = false ∧
    renameCol ("a_selfloop".toList) = "a_selfloop".toList :=
  ⟨(rename_selfloop_columns ["selfloop_x".toList]).1
      (renameCol ("selfloop_x".toList)) (by decide),
   (rename_selfloop_columns ["a_selfloop".toList]).2
      ("a_selfloop".toList) (by decide) (by decide)⟩

/-- C6: county-level aggregation over the concatenated reduced
tables — a key in both tables gets the sum of its two totals, a key
in exactly one gets that single value, and the retained county name
is the first one encountered for the key in concatenation order. -/
theorem county_aggregation_sums_and_first_name :
    (∀ (crop animal : List (Nat × String × ℚ)) (k : Nat) (n₁ n₂ : String)
        (a b : ℚ),
      crop.filter (fun r => r.1 == k) = [(k, n₁, a)] →
      animal.filter (fun r => r.1 == k) = [(k, n₂, b)] →
      aggLookup (total_nitrogen_df (crop ++ animal)) k = some (a + b, n₁)) ∧
    (∀ (crop animal : List (Nat × String × ℚ)) (k : Nat) (n : String) (a : ℚ),
      crop.filter (fun r => r.1 == k) = [(k, n, a)] →
      animal.filter (fun r => r.1 == k) = [] →
      aggLookup (total_nitrogen_df (crop ++ animal)) k = some (a, n)) ∧
    (∀ (crop animal : List (Nat × String × ℚ)) (k : Nat) (n : String) (b : ℚ),
      crop.filter (fun r => r.1 == k) = [] →
      animal.filter (fun r => r.1 == k) = [(k, n, b)] →
      aggLookup (total_nitrogen_df (crop ++ animal)) k = some (b, n)) := by
  refine ⟨?_, ?_, ?_⟩
  · intro crop animal k n₁ n₂ a b h₁ h₂
    have hfil : (crop ++ animal).filter (fun r => r.1 == k) =
        [(k, n₁, a), (k, n₂, b)] := by
      rw [List.filter_append, h₁, h₂]
      rfl
    rw [aggLookup_total_nitrogen_df _ _ (by rw [hfil]; simp), hfil]
    simp
  · intro crop animal k n a h₁ h₂
    have hfil : (crop ++ animal).filter (fun r => r.1 == k) = [(k, n, a)] := by
      rw [List.filter_append, h₁, h₂, List.append_nil]
    rw [aggLookup_total_nitrogen_df _ _ (by rw [hfil]; simp), hfil]
    simp
  · intro crop animal k n b h₁ h₂
    have hfil : (crop ++ animal).filter (fun r => r.1 == k) = [(k, n, b)] := by
      rw [List.filter_append, h₁, h₂, List.nil_append]
    rw [aggLookup_total_nitrogen_df _ _ (by rw [hfil]; simp), hfil]
    simp

/-- Witness for C6: a shared key, a crop-only key and an animal-only
key on concrete one-row tables. -/
theorem county_aggregation_sums_and_first_name_witness :
    aggLookup (total_nitrogen_df ([(1, "A", (2 : ℚ))] ++ [(1, "B", (3 : ℚ))])) 1 =
        some (2 + 3, "A") ∧
    aggLookup (total_nitrogen_df ([(1, "A", (2 : ℚ))] ++ [(7, "B", (3 : ℚ))])) 1 =
        some (2, "A") ∧
    aggLookup (total_nitrogen_df ([(7, "A", (2 : ℚ))] ++ [(1, "B", (3 : ℚ))])) 1 =
        some (3, "B") :=
  ⟨county_aggregation_sums_and_first_name.1 [(1, "A", 2)] [(1, "B", 3)]
      1 "A" "B" 2 3 rfl rfl,
   county_aggregation_sums_and_first_name.2.1 [(1, "A", 2)] [(7, "B", 3)]
      1 "A" 2 rfl rfl,
   county_aggregation_sums_and_first_name.2.2 [(7, "A", 2)] [(1, "B", 3)]
      1 "B" 3 rfl rfl⟩

/-- The raw category sums of the synthetic end-to-end scenario. -/
lemma categorySums_7 :
    categorySums crop7 animal7 =
      [1000000, 1000000, 2000000, 2000000, 2000000, 2000000, 2000000] := by
  norm_num [categorySums, crop7, animal7, pdSum_cons_some, pdSum_nil]

/-- The raw converted grand total of the end-to-end scenario. -/
lemma raw_total_7 : raw_converted_total crop7 animal7 = 12 := by
  norm_num [raw_converted_total, crop7, animal7, pdSum_cons_some, pdSum_nil]

/-- The summary table of the end-to-end scenario. -/
lemma nitrogen_table_7 :
    nitrogen_loss_table crop7 animal7 = ([1, 1, 2, 2, 2, 2, 2], 12) := by
  simp only [nitrogen_loss_table, categorySums_7, raw_total_7]
  norm_num [round2, roundHalfEven]

/-- C7: selecting year 2017 over the synthetic two-row tables whose
crop loss columns sum to 1e6 each and whose animal loss columns sum
to 2e6 each produces the summary-table values [1, 1, 2, 2, 2, 2, 2]
(after division by 10^6) and a reported total of 12. -/
theorem end_to_end_2017_summary_table :
    (update_dashboard "2017" fs7).toOption.map (fun a => a.nitrogenTable) =
      some ([1, 1, 2, 2, 2, 2, 2], 12) := by
  have h : (update_dashboard "2017" fs7).toOption.map (fun a => a.nitrogenTable) =
      some (nitrogen_loss_table crop7 animal7) := rfl
  rw [h, nitrogen_table_7]

/-- C9: an unrecognized year key fails the whole recomputation with
the dataset-not-found error, and any loader failure propagates as the
single reported failure — artifacts exist only when the entire load
succeeded, so no partial artifact set is ever produced. -/
theorem invalid_year_and_all_or_nothing :
    (∀ (year : String) (fs : FS), year ∉ validYears →
      update_dashboard year fs =
        Except.error (DashError.datasetNotFound year)) ∧
    (∀ (year : String) (fs : FS) (e : DashError),
      load_data year fs = Except.error e →
      update_dashboard year fs = Except.error e) ∧
    (∀ (year : String) (fs : FS) (a : Artifacts),
      update_dashboard year fs = Except.ok a →
      ∃ t : Loaded, load_data year fs = Except.ok t ∧ a = buildArtifacts t) := by
  refine ⟨?_, ?_, ?_⟩
  · intro year fs h
    simp [update_dashboard, load_data, h, Except.map]
  · intro year fs e h
    simp [update_dashboard, h, Except.map]
  · intro year fs a h
    cases hl : load_data year fs with
    | error e =>
      rw [update_dashboard, hl] at h
      exact absurd h (by simp [Except.map])
    | ok t =>
      refine ⟨t, rfl, ?_⟩
      rw [update_dashboard, hl] at h
      simp only [Except.map, Except.ok.injEq] at h
      exact h.symm

/-- Witness for C9: the unknown year 1999 fails with the
dataset-not-found error, and a recognized year over a directory with
no files fails with the file-load error of the first file. -/
theorem invalid_year_and_all_or_nothing_witness :
    update_dashboard "1999" emptyFS =
        Except.error (DashError.datasetNotFound "1999") ∧
    update_dashboard "2017" emptyFS =
        Except.error (DashError.fileLoad "nitrogen_losses_summary.csv") :=
  ⟨invalid_year_and_all_or_nothing.1 "1999" emptyFS (by decide),
   invalid_year_and_all_or_nothing.2.1 "2017" emptyFS
      (DashError.fileLoad "nitrogen_losses_summary.csv") rfl⟩

end Dashboard
